import Mathlib

/-!
Verification of the AuditLangInterpreter core: a shallow embedding of
`src/core/src/semantic_tree_executor.py` and
`src/core/src/semantic_tree_builder.py` (plus, for one refinement claim, the
variant matcher in `src/demo/backend/semantic_tree_executor.py`).

External effects (the SSH channel, the Python `re` module, `json`) are
represented by an oracle structure `Env`; everything else is translated
function-by-function from the Python source.  Python exceptions are modelled
with `Except String`: a `.error` value is a raised exception, and the
`try/except` blocks of the source become `match` on that value.
-/

namespace Audit

/-! ### Python string primitives


The Lean core `String` functions are not kernel-reducible, so the Python
string operations the source uses are re-implemented here by structural (or
fuel-based, with sufficient fuel) recursion over `List Char`.
-/

/-- Embeds `List.isPrefixOf` for chars, by structural recursion. -/
def charsPrefixOf : List Char → List Char → Bool
  | [], _ => true
  | _ :: _, [] => false
  | p :: ps, c :: cs => p == c && charsPrefixOf ps cs

/-- Occurrence test used for Python `needle in haystack`. -/
def charsContains (pat : List Char) : List Char → Bool
  | [] => pat.isEmpty
  | c :: rest => charsPrefixOf pat (c :: rest) || charsContains pat rest

/-- Python `needle in haystack` for strings. -/
def strContains (s pat : String) : Bool :=
  charsContains pat.data s.data

/-- Fuel-driven worker for `str.split(sep)` with a non-empty `sep`. -/
def splitChars (sep : List Char) : Nat → List Char → List Char → List (List Char)
  | 0, s, acc => [acc.reverse ++ s]
  | fuel + 1, s, acc =>
    match s with
    | [] => [acc.reverse]
    | c :: rest =>
      if charsPrefixOf sep s then
        acc.reverse :: splitChars sep fuel (s.drop sep.length) []
      else
        splitChars sep fuel rest (c :: acc)

/-- Python `s.split(sep)` for a non-empty literal separator (the source only
splits on `" -> "`, `","`, `" && "`, `"\n"`). -/
def pySplit (s sep : String) : List String :=
  if sep.data.isEmpty then [s]
  else (splitChars sep.data s.data.length s.data []).map List.asString

/-- Python `str.strip()` (ASCII whitespace). -/
def pyStrip (s : String) : String :=
  (((s.data.dropWhile Char.isWhitespace).reverse.dropWhile Char.isWhitespace).reverse).asString

/-- Python `s.startswith(p)`. -/
def pyStartsWith (s p : String) : Bool :=
  charsPrefixOf p.data s.data

/-- Python `s.endswith(p)`. -/
def pyEndsWith (s p : String) : Bool :=
  charsPrefixOf p.data.reverse s.data.reverse

/-- Python `s[n:]`. -/
def pyDrop (s : String) (n : Nat) : String :=
  (s.data.drop n).asString

/-- Fuel-driven worker for `str.replace` (left-to-right, non-overlapping). -/
def replaceChars (pat sub : List Char) : Nat → List Char → List Char
  | 0, s => s
  | fuel + 1, s =>
    match s with
    | [] => []
    | c :: rest =>
      if charsPrefixOf pat s then
        sub ++ replaceChars pat sub fuel (s.drop pat.length)
      else
        c :: replaceChars pat sub fuel rest

/-- Python `s.replace(pat, sub)` for a non-empty `pat`. -/
def pyReplace (s pat sub : String) : String :=
  if pat.data.isEmpty then s
  else (replaceChars pat.data sub.data s.data.length s.data).asString

/-- Python `sep.join(parts)`. -/
def pyJoin (sep : String) : List String → String
  | [] => ""
  | [p] => p
  | p :: rest => p ++ sep ++ pyJoin sep rest

/-- Python `str.splitlines` restricted to `"\n"` separators (the only line
terminator produced by the shells the executor drives): `""` has no lines and
a trailing newline does not create a final empty line. -/
def pySplitlines (s : String) : List String :=
  if s == "" then []
  else if pyEndsWith s "\n" then pySplit ((s.data.dropLast).asString) "\n"
  else pySplit s "\n"

/-- Decimal value of an all-digit character list. -/
def digitsToNat : List Char → Nat → Nat
  | [], acc => acc
  | c :: rest, acc => digitsToNat rest (acc * 10 + (c.toNat - 48))

/-- Python `int(str)`: optional surrounding whitespace, optional sign, at
least one decimal digit; anything else raises `ValueError` (`none` here). -/
def pyInt (s : String) : Option Int :=
  let t := (pyStrip s).data
  let (sign, digits) :=
    if charsPrefixOf ['-'] t then ((-1 : Int), t.drop 1)
    else if charsPrefixOf ['+'] t then ((1 : Int), t.drop 1)
    else ((1 : Int), t)
  if !digits.isEmpty && digits.all Char.isDigit then
    some (sign * (digitsToNat digits 0 : Int))
  else
    none

/-- Python `str(x)` on an `Optional[str]` as used in f-strings: `None` prints
as `"None"`. -/
def pyStr : Option String → String
  | some s => s
  | none => "None"

/-- Python truthiness of an `Optional[str]`: `None` and `""` are falsy. -/
def optFalsy : Option String → Bool
  | none => true
  | some s => s == ""

/-- Oracle for everything outside the two embedded modules: the remote shell,
the Python `re` module, and `json`.

* `ssh c` is the `(stdout, stderr, exit_status)` triple `SSHManager.execute_command c`
  obtains from the remote host (stdout/stderr already utf-8 decoded and
  `.strip()`-ped as in the source's `execute_command`);
* `regroups pat s` is `re.search(pat, s)`: `none` when there is no match,
  otherwise the list of capture groups of the match (each `none` when the
  group did not participate).  Patterns that reach the executor are assumed
  to compile (the parser rejects non-compiling ones);
* `compiles pat` is whether `re.compile(pat)` succeeds;
* `hasGroup pat` is whether the compiled pattern contains at least one
  capture group (`re.compile(pat).groups >= 1`);
* `jsonLoadsList s` is `json.loads(s)` when it yields a list of strings,
  `none` when it raises `JSONDecodeError` or yields a non-list;
* `jsonDumps l` is `json.dumps(l)`;
* `subSudoPrompt e` is `re.sub(r"\x5b(sudo)\x5d password for .+?: ?", "", e)`;
* `password` is the SSH password, `connectOk` the outcome of `connect()`. -/
structure Env where
  ssh : String → String × String × Int
  regroups : String → String → Option (List (Option String))
  compiles : String → Bool
  hasGroup : String → Bool
  jsonLoadsList : String → Option (List String)
  jsonDumps : List String → String
  subSudoPrompt : String → String
  password : String
  connectOk : Bool

/-- Embeds `re.search(pat, s)` used as a boolean, derived from the group oracle. -/
def research (env : Env) (pat s : String) : Bool :=
  (env.regroups pat s).isSome

/-! ### Data model (`semantic_tree_builder.py` classes / executor dicts) -/

/-- Embeds `ExecutionNode`: kind tag plus targets.  `main_target` is `Optional`
because `parse_directory_rule` builds inner file nodes with
`main_target=None`. -/
structure ExecNode where
  type : String
  main_target : Option String
  sub_target : Option String := none
  target_pattern : Option String := none
  deriving Repr, DecidableEq

/-- Embeds `ContentRule`: `content_operator` is `'r'`, `'n'` or `None`
(substring). -/
structure ContentRule where
  content_operator : Option String
  value : String
  compare_operator : Option String := none
  compare_value : Option String := none
  negation : Bool := false
  deriving Repr, DecidableEq

/-- The dict form of a `FileRule` (as stored inside a directory rule's
`file_rules`): one execution node, content rules, its own negation flag. -/
structure FRule where
  execution_node : ExecNode
  content_rules : List ContentRule
  negation : Bool
  deriving Repr, DecidableEq

/-- The dict form of a top-level typed rule as consumed by
`SemanticTreeExecutor._execute_rules`: `content_rules` and `file_rules`
default to `[]` when the underlying dict lacks the key (`rule.get`). -/
structure ERule where
  execution_node : ExecNode
  negation : Bool
  content_rules : List ContentRule := []
  file_rules : List FRule := []
  deriving Repr, DecidableEq

/-- Embeds `ExecutionResult` of the executor. -/
structure ExecutionResult where
  success : Bool
  output : Option String := none
  error : Option String := none
  deriving Repr, DecidableEq

/-- Embeds `ContentCheckResult` (the `details` field is never set by the source). -/
structure ContentCheckResult where
  success : Bool
  error : Option String := none
  deriving Repr, DecidableEq

/-! ### Executor error strings (`ExecutionError` enum, `.value[1]`) -/

def MISMATCH_OS_TYPE_msg : String := "Mismatch in OS types"
def INVALID_NODE_TYPE_msg : String := "Invalid node type"
def INVALID_CONFIGURATION_msg : String := "Invalid configuration for node type"
def SSH_EXECUTION_FAILED_msg : String := "SSH command execution failed"
def COMMAND_FAILED_msg : String := "Command execution failed"
def OS_DETECTION_FAILED_msg : String := "Failed to determine the actual OS type"
def UNKNOWN_ERROR_msg : String := "Unknown error occurred during execution"

/-! ### SSHManager -/

/-- Embeds `SSHManager.execute_command`: run the command over the channel and strip
stdout/stderr. -/
def execute_command (env : Env) (command : String) : String × String × Int :=
  let (output, error, exit_status) := env.ssh command
  (pyStrip output, pyStrip error, exit_status)

/-- Embeds `SSHManager.execute_command_with_sudo`.  `os_type_is_linux` is whether
the `os_type` argument equals `"linux"`; the call sites inside
`ExecutionNodeExecutor` pass the `SSHManager` object itself as `os_type`
(which never equals the string `"linux"`), so those call sites pass `false`
here and no extra wrapper is added.  The returned stdout/stderr are stripped
a second time, which is idempotent. -/
def execute_command_with_sudo (env : Env) (command : String)
    (os_type_is_linux : Bool) (use_sudo : Bool) : String × String × Int :=
  let command :=
    if use_sudo && os_type_is_linux then
      "export LC_ALL=C && echo " ++ env.password ++ " | sudo -S " ++ command
    else command
  let (output, error, exit_status) := execute_command env command
  (pyStrip output, pyStrip error, exit_status)

/-! ### OSCommandBuilder (a raised `ValueError` is `.error`) -/

def build_file_existence_command (os_type filepath : String) : Except String String :=
  if os_type == "linux" then
    .ok ("test -f " ++ filepath ++ " && echo \x27exists\x27 || echo \x27not exists\x27")
  else if os_type == "windows" then
    .ok ("if exist " ++ filepath ++ " (echo exists) else (echo not exists)")
  else .error ("Unsupported OS type: " ++ os_type)

/- the misspelt name `exsistence` is the source's -/
def build_directory_exsistence_command (os_type directory : String) : Except String String :=
  if os_type == "linux" then .ok ("ls " ++ directory)
  else if os_type == "windows" then .ok ("dir " ++ directory ++ " /b")
  else .error ("Unsupported OS type: " ++ os_type)

def build_directory_listing_command (os_type directory : String) : Except String String :=
  if os_type == "linux" then .ok ("find " ++ directory ++ " -maxdepth 3 -type f")
  else if os_type == "windows" then .ok ("dir " ++ directory ++ " /s /b")
  else .error ("Unsupported OS type: " ++ os_type)

def build_process_check_command (os_type process_name : String) : Except String String :=
  if os_type == "linux" then
    .ok ("ps aux | grep \x27" ++ process_name ++ "\x27 | grep -v grep")
  else if os_type == "windows" then
    .ok ("tasklist /FI \"IMAGENAME eq " ++ process_name ++ "\"")
  else .error ("Unsupported OS type: " ++ os_type)

def build_registry_check_command (os_type registry_path registry_key : String) : Except String String :=
  if os_type == "windows" then
    .ok ("reg query \"" ++ registry_path ++ "\" /v " ++ registry_key)
  else .error "Registry checks are only supported on Windows OS."

def build_registry_key_existence_command (os_type registry_path : String) : Except String String :=
  if os_type == "windows" then
    .ok ("reg query \"" ++ registry_path ++ "\"")
  else .error "Registry checks are only supported on Windows OS."

def build_read_file_command (os_type filepath : String) : Except String String :=
  if os_type == "linux" then .ok ("cat " ++ filepath)
  else if os_type == "windows" then .ok ("type " ++ filepath)
  else .error ("Unsupported OS type: " ++ os_type)

/-! ### ContentRuleChecker (core executor) -/

/-- Embeds `ContentRuleChecker.numeric_compare`.  Any exception inside the Python
`try` (pattern without a group 1, a group that did not participate, a capture
or compare value that is no integer literal) reaches the `except` clause,
which re-raises; that re-raise evaluates
`ExecutionError.INVALID_COMPARE_EXPRESSION`, an enum member that does not
exist in the executor, so the escaping exception is in fact an
`AttributeError` — either way an exception propagates to the caller,
modelled as `.error`.  An unknown `compare_operator` merely returns
`False`. -/
def numeric_compare (env : Env) (content value : String)
    (compare_operator compare_value_str : Option String) : Except String Bool :=
  match env.regroups value content with
  | none => .ok false
  | some groups =>
    match groups.head? with
    | none => .error "numeric compare raised: no such group"
    | some none => .error "numeric compare raised: int() of None"
    | some (some captured) =>
      match pyInt captured with
      | none => .error "numeric compare raised: invalid literal for int()"
      | some number =>
        match compare_value_str with
        | none => .error "numeric compare raised: int() of None"
        | some cvs =>
          match pyInt cvs with
          | none => .error "numeric compare raised: invalid literal for int()"
          | some compare_value =>
            if compare_operator == some ">" then .ok (decide (number > compare_value))
            else if compare_operator == some ">=" then .ok (decide (number ≥ compare_value))
            else if compare_operator == some "<" then .ok (decide (number < compare_value))
            else if compare_operator == some "<=" then .ok (decide (number ≤ compare_value))
            else if compare_operator == some "==" then .ok (number == compare_value)
            else if compare_operator == some "!=" then .ok (number != compare_value)
            else .ok false

/-- Embeds `ContentRuleChecker._does_line_match_rule`: dispatch on
`content_operator` (`'r'` regex, `'n'` numeric — which may raise —, `None`
substring, anything else `False`). -/
def does_line_match_rule (env : Env) (line : String) (rule : ContentRule) : Except String Bool :=
  if rule.content_operator == some "r" then
    .ok (research env rule.value line)
  else if rule.content_operator == some "n" then
    numeric_compare env line rule.value rule.compare_operator rule.compare_value
  else if rule.content_operator == none then
    .ok (strContains line rule.value)
  else
    .ok false

/-- Inner loop of `ContentRuleChecker._check_lines`: conjunction of all
content rules on one line, each rule's own negation applied before the
short-circuiting `break`; a raised exception propagates. -/
def line_match_rules (env : Env) (line : String) : List ContentRule → Except String Bool
  | [] => .ok true
  | rule :: rest =>
    match does_line_match_rule env line rule with
    | .error e => .error e
    | .ok rule_match0 =>
      let rule_match := if rule.negation then !rule_match0 else rule_match0
      if rule_match then line_match_rules env line rest else .ok false

/-- Outer loop of `_check_lines`: existential over the lines, short-circuit
on the first line matching all rules; a raised exception propagates. -/
def check_lines_any (env : Env) (content_rules : List ContentRule) : List String → Except String Bool
  | [] => .ok false
  | line :: rest =>
    match line_match_rules env line content_rules with
    | .error e => .error e
    | .ok line_match =>
      if line_match then .ok true else check_lines_any env content_rules rest

/-- Embeds `ContentRuleChecker._check_lines`: existential over lines of the
conjunction over content rules, then the checker-level (rule-level)
negation flip. -/
def check_lines (env : Env) (content_rules : List ContentRule) (rule_negation : Bool)
    (lines : List String) : Except String Bool :=
  match check_lines_any env content_rules lines with
  | .error e => .error e
  | .ok match_ => .ok (if rule_negation then !match_ else match_)

/-- Embeds `ContentRuleChecker.check_command_output`: `_check_lines` over
`content.splitlines()`, any escaping exception caught by the method's own
`except` and reported as `UNKNOWN_ERROR`. -/
def check_command_output (env : Env) (content_rules : List ContentRule) (rule_negation : Bool)
    (content : String) : ContentCheckResult :=
  match check_lines env content_rules rule_negation (pySplitlines content) with
  | .ok b => ⟨b, none⟩
  | .error e => ⟨false, some (UNKNOWN_ERROR_msg ++ ": " ++ e)⟩

/-- Embeds `ContentRuleChecker.read_and_check_file`: read the file over SSH (sudo
elevation exactly when `os_type` is `"linux"`), return success immediately
for an empty body with no content rules, otherwise run `_check_lines`;
exceptions are caught by the method's own `except`. -/
def read_and_check_file (env : Env) (content_rules : List ContentRule) (rule_negation : Bool)
    (os_type : String) (file_path : String) : ContentCheckResult :=
  match build_read_file_command os_type file_path with
  | .error e => ⟨false, some (UNKNOWN_ERROR_msg ++ ": " ++ e)⟩
  | .ok command =>
    let (output, error, exit_status) := execute_command_with_sudo env command (os_type == "linux") true
    if exit_status != 0 then
      ⟨false, some ("Failed to read file " ++ file_path ++ ": " ++ error)⟩
    else if pyStrip output == "" && content_rules.isEmpty then
      ⟨true, none⟩
    else
      match check_lines env content_rules rule_negation (pySplitlines output) with
      | .ok b => ⟨b, none⟩
      | .error e => ⟨false, some (UNKNOWN_ERROR_msg ++ ": " ++ e)⟩

/-- Embeds `ContentRuleChecker._parse_content`: `json.loads` when it yields a list,
otherwise (decode error or non-list) the single-element list. -/
def parse_content (env : Env) (content : String) : List String :=
  match env.jsonLoadsList content with
  | some l => l
  | none => [content]

/-- The `Union[str, List[str]]` content argument of
`ContentRuleChecker.check`. -/
inductive PyContent
  | str (s : String)
  | lst (l : List String)
  deriving Repr, DecidableEq

/-- Embeds `ContentRuleChecker.check_file_content`: normalise the content to a file
list, fail on an empty list, otherwise check each file in turn (the Python
loop appends `result.success` on both branches) and reduce with `any`. -/
def check_file_content (env : Env) (content_rules : List ContentRule) (rule_negation : Bool)
    (os_type : String) (content : PyContent) : ContentCheckResult :=
  let files :=
    match content with
    | .str s => parse_content env s
    | .lst l => l
  if files.isEmpty then
    ⟨false, some "No files matched the pattern."⟩
  else
    let results := files.map fun file_path =>
      (read_and_check_file env content_rules rule_negation os_type file_path).success
    ⟨results.any id, none⟩

/-- Embeds `ContentRuleChecker.check`.  `content` is the raw
`ExecutionResult.output`, so `None` is possible: a `None` (or a list) fed to
`check_command_output` raises `AttributeError` on `.splitlines` inside that
method's `try`; a `None` fed to `check_file_content` falls through both
`isinstance` tests and its error branch evaluates the non-existent
`ExecutionError.INVALID_FILE_RULE`, raising `AttributeError` inside that
method's `try`; both surface as `UNKNOWN_ERROR` results. -/
def checker_check (env : Env) (node_type : String) (content_rules : List ContentRule)
    (rule_negation : Bool) (os_type : String) (content : Option PyContent) : ContentCheckResult :=
  if node_type == "c" then
    match content with
    | some (.str s) => check_command_output env content_rules rule_negation s
    | _ => ⟨false, some (UNKNOWN_ERROR_msg ++ ": splitlines on a non-string")⟩
  else if node_type == "f" then
    match content with
    | some c => check_file_content env content_rules rule_negation os_type c
    | none => ⟨false, some (UNKNOWN_ERROR_msg ++ ": INVALID_FILE_RULE")⟩
  else if node_type == "d" || node_type == "p" then
    ⟨true, none⟩
  else
    ⟨false, some INVALID_NODE_TYPE_msg⟩

/-! ### ExecutionNodeExecutor -/

/-- The manual elevation wrapper the probe methods prepend themselves. -/
def sudoWrap (env : Env) (command : String) : String :=
  "export LC_ALL=C && echo " ++ env.password ++ " | sudo -S " ++ command

/-- Embeds `ExecutionNodeExecutor.determine_actual_os_type`: run `uname` (no sudo
wrapper: the `os_type` argument at this call site is the `SSHManager`
object), classify by whether stdout contains `"Linux"`; non-zero exit
raises. -/
def determine_actual_os_type (env : Env) : Except String String :=
  let (output, _error, exit_status) := execute_command_with_sudo env "uname" false true
  if exit_status != 0 then
    .error (OS_DETECTION_FAILED_msg ++ ": Failed to detect OS type")
  else if strContains output "Linux" then .ok "linux"
  else .ok "windows"

/-- Embeds `ExecutionNodeExecutor.check_directory_existence`. -/
def check_directory_existence (env : Env) (node : ExecNode) (os_type : String) : ExecutionResult :=
  if !optFalsy node.sub_target || !optFalsy node.target_pattern then
    ⟨false, none, some INVALID_CONFIGURATION_msg⟩
  else
    match build_directory_exsistence_command os_type (pyStr node.main_target) with
    | .error e => ⟨false, none, some (SSH_EXECUTION_FAILED_msg ++ ": " ++ e)⟩
    | .ok command =>
      let command := sudoWrap env command
      let (output, _error, _exit_status) := execute_command_with_sudo env command false true
      if output != "" then ⟨true, node.main_target, none⟩
      else ⟨false, node.main_target, none⟩

/-- Embeds `ExecutionNodeExecutor.check_file_existence` (note that
`"not exists" in output` is tested first). -/
def check_file_existence (env : Env) (node : ExecNode) (os_type : String) : ExecutionResult :=
  if !optFalsy node.sub_target || !optFalsy node.target_pattern then
    ⟨false, none, some INVALID_CONFIGURATION_msg⟩
  else
    match build_file_existence_command os_type (pyStr node.main_target) with
    | .error e => ⟨false, none, some (SSH_EXECUTION_FAILED_msg ++ ": " ++ e)⟩
    | .ok command =>
      let command := sudoWrap env command
      let (output0, _error, _exit_status) := execute_command_with_sudo env command false true
      let output := if output0 != "" then pyStrip output0 else ""
      if strContains output "not exists" then ⟨false, node.main_target, none⟩
      else if strContains output "exists" then ⟨true, node.main_target, none⟩
      else ⟨false, none, some "Unexpected output from file existence check."⟩

/-- Embeds `ExecutionNodeExecutor._filter_files_with_pattern` (an invalid pattern
raises `ValueError`). -/
def filter_files_with_pattern (env : Env) (file_list pattern : String) : Except String (List String) :=
  if env.compiles pattern then
    .ok ((pySplit file_list "\n").filterMap fun file =>
      let t := pyStrip file
      if t != "" && research env pattern t then some t else none)
  else
    .error "Invalid regex pattern"

/-- Embeds `ExecutionNodeExecutor.list_files_with_pattern`. -/
def list_files_with_pattern (env : Env) (node : ExecNode) (os_type : String) : ExecutionResult :=
  if optFalsy node.target_pattern || !optFalsy node.sub_target then
    ⟨false, none, some INVALID_CONFIGURATION_msg⟩
  else
    match build_directory_listing_command os_type (pyStr node.main_target) with
    | .error e => ⟨false, none, some (SSH_EXECUTION_FAILED_msg ++ ": " ++ e)⟩
    | .ok command =>
      let command := sudoWrap env command
      let (output, _error, _exit_status) := execute_command_with_sudo env command false true
      if output != "" then
        match filter_files_with_pattern env output (pyStr node.target_pattern) with
        | .error e => ⟨false, none, some (SSH_EXECUTION_FAILED_msg ++ ": " ++ e)⟩
        | .ok filtered_files =>
          if !filtered_files.isEmpty then ⟨true, some (env.jsonDumps filtered_files), none⟩
          else ⟨false, none, some "No files matched the pattern"⟩
      else ⟨false, none, some "No output from command"⟩

/-- Embeds `ExecutionNodeExecutor.run_command`.  When `os_type` is not `"linux"`,
no branch assigns the local variable `command`, so the `logger.debug`
f-string that reads it raises `UnboundLocalError`, which the method's own
`except` converts into a failed result; no command reaches the shell in that
case. -/
def run_command (env : Env) (node : ExecNode) (os_type : String) : ExecutionResult :=
  if !optFalsy node.sub_target || !optFalsy node.target_pattern then
    ⟨false, none, some INVALID_CONFIGURATION_msg⟩
  else if os_type != "linux" then
    ⟨false, none, some (SSH_EXECUTION_FAILED_msg ++ ": local variable \x27command\x27 referenced before assignment")⟩
  else
    let command := sudoWrap env (pyStr node.main_target)
    let (output0, error0, _exit_status) := execute_command_with_sudo env command false true
    let output := if output0 != "" then pyStrip output0 else ""
    let error1 := if error0 != "" then pyStrip error0 else ""
    let error := env.subSudoPrompt error1
    if output != "" && error != "" then ⟨true, some (output ++ "\n" ++ error), none⟩
    else if output != "" then ⟨true, some output, none⟩
    else if error != "" then ⟨true, some error, none⟩
    else ⟨false, none, some "Command failed with no result"⟩

/-- Embeds `ExecutionNodeExecutor.check_process_existence` (no manual sudo wrapper
on this path). -/
def check_process_existence (env : Env) (node : ExecNode) (os_type : String) : ExecutionResult :=
  if !optFalsy node.sub_target || !optFalsy node.target_pattern then
    ⟨false, none, some INVALID_CONFIGURATION_msg⟩
  else
    match build_process_check_command os_type (pyStr node.main_target) with
    | .error e => ⟨false, none, some (SSH_EXECUTION_FAILED_msg ++ ": " ++ e)⟩
    | .ok command =>
      let (output, _error, _exit_status) := execute_command_with_sudo env command false true
      if output != "" then ⟨true, node.main_target, none⟩
      else ⟨false, node.main_target, none⟩

/-- Embeds `ExecutionNodeExecutor.check_registry_key`.  The `ValueError` raised by
the command builder on a non-Windows family is caught by this method's own
`except` and reported with the `SSH_EXECUTION_FAILED` prefix. -/
def check_registry_key (env : Env) (node : ExecNode) (os_type : String) : ExecutionResult :=
  let built :=
    if optFalsy node.sub_target then
      build_registry_key_existence_command os_type (pyStr node.main_target)
    else
      build_registry_check_command os_type (pyStr node.main_target) (pyStr node.sub_target)
  match built with
  | .error e => ⟨false, none, some (SSH_EXECUTION_FAILED_msg ++ ": " ++ e)⟩
  | .ok command =>
    let (output, _error, _exit_status) := execute_command_with_sudo env command false true
    if output != "" then ⟨true, some (pyStrip output), none⟩
    else ⟨false, some (pyStrip output), none⟩

/-- Embeds `ExecutionNodeExecutor.execute`: detect the actual OS, compare with the
declared family (mismatch short-circuits this *node* with
`MISMATCH_OS_TYPE`), then dispatch on the node kind.  A raise from OS
detection is caught by this method's `except` and reported as
`COMMAND_FAILED`. -/
def execute_node (env : Env) (node : ExecNode) (os_type : String) : ExecutionResult :=
  match determine_actual_os_type env with
  | .error e => ⟨false, none, some (COMMAND_FAILED_msg ++ ": " ++ e)⟩
  | .ok actual_os_type =>
    if os_type != actual_os_type then
      ⟨false, none, some MISMATCH_OS_TYPE_msg⟩
    else if node.type == "d" then check_directory_existence env node os_type
    else if node.type == "f" then
      if !optFalsy node.target_pattern then list_files_with_pattern env node os_type
      else check_file_existence env node os_type
    else if node.type == "c" then run_command env node os_type
    else if node.type == "p" then check_process_existence env node os_type
    else if node.type == "r" then check_registry_key env node os_type
    else ⟨false, none, some INVALID_NODE_TYPE_msg⟩

/-! ### SemanticTreeExecutor -/

/-- Embeds `SemanticTreeExecutor._check_content_rules`: build a `ContentRuleChecker`
with the rule's node type and content rules and the caller's negation flag,
and reduce its result to a boolean.  (Its `except` branch is unreachable:
`ContentRuleChecker.check` catches every exception itself.) -/
def check_content_rules (env : Env) (node_type : String) (content_rules : List ContentRule)
    (exec_output : Option String) (os_type : String) (rule_negation : Bool) : Bool :=
  (checker_check env node_type content_rules rule_negation os_type
    (exec_output.map PyContent.str)).success

/-- Embeds `SemanticTreeExecutor._process_file_rules`.  `directory_output` is
accepted but never read by the source; the `negation` argument is the
*directory* rule's flag, and the inner file rule's own `negation` field is
never consulted. -/
def process_file_rules (env : Env) (file_rules : List FRule) (_directory_output : Option String)
    (os_type : String) (negation : Bool) : List Bool :=
  file_rules.map fun file_rule =>
    let execution_result := execute_node env file_rule.execution_node os_type
    if !execution_result.success then
      false
    else
      check_content_rules env file_rule.execution_node.type file_rule.content_rules
        execution_result.output os_type negation

/-- One iteration of the `for rule in rules` loop of
`SemanticTreeExecutor._execute_rules`: the booleans this rule appends to
`rule_results`. -/
def execute_one_rule (env : Env) (rule : ERule) (os_type : String) : List Bool :=
  let exec_node := rule.execution_node
  let rule_negation := rule.negation
  let execution_result := execute_node env exec_node os_type
  if !execution_result.success then
    [if rule_negation then !execution_result.success else execution_result.success]
  else if exec_node.type == "d" then
    if !rule.file_rules.isEmpty then
      process_file_rules env rule.file_rules execution_result.output os_type rule_negation
    else
      [execution_result.success]
  else
    [check_content_rules env exec_node.type rule.content_rules execution_result.output
      os_type rule_negation]

/-- Embeds `SemanticTreeExecutor._execute_rules` (the abort path through
`SemanticTreeExecutionResult` is unreachable: every exception inside the
content checker is caught by the checker itself). -/
def execute_rules (env : Env) (rules : List ERule) (os_type : String) : List Bool :=
  (rules.map fun rule => execute_one_rule env rule os_type).flatten

/-- Embeds `SemanticTreeExecutor._evaluate_condition`. -/
def evaluate_condition (condition : String) (rule_results : List Bool) : Option Bool :=
  if condition == "all" then some (rule_results.all id)
  else if condition == "any" then some (rule_results.any id)
  else if condition == "none" then some (!rule_results.any id)
  else none

/-- One check of the semantic tree as consumed by `execute_tree`. -/
structure Check where
  id : Int
  condition : String
  rules : List ERule
  deriving Repr, DecidableEq

/-- The per-check entry of the results map. -/
structure CheckOutcome where
  result : String
  condition : String
  rule_results : List Bool
  deriving Repr, DecidableEq

/-- The `for check in checks` loop of `SemanticTreeExecutor.execute_tree`. -/
def execute_checks (env : Env) (os_type : String) : List Check → Except String (List (Int × CheckOutcome))
  | [] => .ok []
  | check :: rest =>
    let rule_results := execute_rules env check.rules os_type
    match evaluate_condition check.condition rule_results with
    | none => .error ("Invalid condition specified at check ID " ++ toString check.id)
    | some check_pass =>
      match execute_checks env os_type rest with
      | .error e => .error e
      | .ok others =>
        .ok ((check.id, ⟨if check_pass then "pass" else "fail", check.condition, rule_results⟩) :: others)

/-- Embeds `SemanticTreeExecutor.execute_tree` on the decoded tree (`checks` plus
its `os_type`, defaulted to `"linux"` by the caller); a failed connect or an
invalid condition yields the run-level error. -/
def execute_tree (env : Env) (checks : List Check) (os_type : String) : Except String (List (Int × CheckOutcome)) :=
  if !env.connectOk then .error "Failed to connect to SSH"
  else execute_checks env os_type checks

/-! ### SemanticTreeBuilder (`semantic_tree_builder.py`) -/

/-- A diagnostic accumulated by `SemanticTreeBuilder.add_error`. -/
structure BErr where
  code : String
  message : String
  detail : String
  id : Option Int
  rule_number : Nat
  deriving Repr, DecidableEq

/-- Pairs `(code, message)` of the `SemanticTreeError` enum. -/
def INVALID_ID_e : String × String := ("E001", "Invalid id")
def INVALID_CONDITION_e : String × String := ("E002", "Invalid condition")
def UNKNOWN_RULE_TYPE_e : String × String := ("E003", "Unknown rule type")
def INVALID_FILE_RULE_e : String × String := ("E004", "Invalid file rule")
def INVALID_DIRECTORY_RULE_e : String × String := ("E005", "Invalid directory rule")
def INVALID_COMMAND_RULE_e : String × String := ("E006", "Invalid command rule")
def INVALID_PROCESS_RULE_e : String × String := ("E007", "Invalid process rule")
def INVALID_REGISTRY_RULE_e : String × String := ("E008", "Invalid registry rule")
def INVALID_CONTENT_OPERATOR_e : String × String := ("E009", "Invalid content operator")
def INVALID_COMPARE_EXPRESSION_e : String × String := ("E010", "Invalid compare expression")
def UNKNOWN_ERROR_e : String × String := ("E011", "Unknown error")

/-- Embeds `SemanticTreeBuilder.add_error` entry. -/
def mkErr (cm : String × String) (detail : String) (id : Option Int) (rule_number : Nat) : BErr :=
  ⟨cm.1, cm.2, detail, id, rule_number⟩

/-- A typed rule node as emitted by the builder (`FileRule`,
`DirectoryRule`, `CommandRule`, `ProcessRule`, `RegistryRule`). -/
inductive TypedRule
  | file (r : FRule)
  | dir (execution_node : ExecNode) (file_rules : List FRule) (negation : Bool)
  | cmd (execution_node : ExecNode) (content_rules : List ContentRule) (negation : Bool)
  | proc (execution_node : ExecNode) (negation : Bool)
  | reg (execution_node : ExecNode) (content_rules : List ContentRule) (negation : Bool)
  deriving Repr, DecidableEq

/-- The dict the executor receives for a typed rule (`to_dict`, plus the
executor's `rule.get(..., [])` defaults for the keys a kind does not
serialise). -/
def TypedRule.toERule : TypedRule → ERule
  | .file r => ⟨r.execution_node, r.negation, r.content_rules, []⟩
  | .dir en frs n => ⟨en, n, [], frs⟩
  | .cmd en crs n => ⟨en, n, crs, []⟩
  | .proc en n => ⟨en, n, [], []⟩
  | .reg en crs n => ⟨en, n, crs, []⟩

/-- Embeds `SemanticTreeBuilder._check_negation`. -/
def check_negation (part : String) : Bool × String :=
  if pyStartsWith part "!" then (true, pyDrop part 1) else (false, part)

/-- Parser for the anchored tail `\s+compare\s+([<>]=?|==|!=)\s*(\d+)$` of
the numeric-rule pattern: returns the operator and digit captures when the
whole character list is exactly that tail. -/
def numericSuffixParse (cs : List Char) : Option (String × String) :=
  let ws := cs.takeWhile Char.isWhitespace
  if ws.isEmpty then none
  else
    let cs1 := cs.drop ws.length
    if !charsPrefixOf "compare".data cs1 then none
    else
      let cs2 := cs1.drop 7
      let ws2 := cs2.takeWhile Char.isWhitespace
      if ws2.isEmpty then none
      else
        let cs3 := cs2.drop ws2.length
        let opSplit : Option (String × List Char) :=
          match cs3 with
          | '<' :: '=' :: rest => some ("<=", rest)
          | '<' :: rest => some ("<", rest)
          | '>' :: '=' :: rest => some (">=", rest)
          | '>' :: rest => some (">", rest)
          | '=' :: '=' :: rest => some ("==", rest)
          | '!' :: '=' :: rest => some ("!=", rest)
          | _ => none
        match opSplit with
        | none => none
        | some (op, rest) =>
          let digits := rest.dropWhile Char.isWhitespace
          if !digits.isEmpty && digits.all Char.isDigit then
            some (op, digits.asString)
          else none

/-- The lazy `^(.*?)` scan of the numeric-rule pattern: the shortest prefix
whose remainder parses as the anchored tail wins.  (The Python `.` does not
cross a newline; rule strings are single lines.) -/
def numericFormatScan : List Char → List Char → Option (String × String × String)
  | acc, rest =>
    match numericSuffixParse rest with
    | some (op, num) => some (acc.reverse.asString, op, num)
    | none =>
      match rest with
      | [] => none
      | c :: rs => numericFormatScan (c :: acc) rs

/-- Embeds `re.match(r"^(.*?)\s+compare\s+([<>]=?|==|!=)\s*(\d+)$", s)` as the
triple of its three captures. -/
def numericFormatMatch (s : String) : Option (String × String × String) :=
  numericFormatScan [] s.data

/-- Embeds `SemanticTreeBuilder._parse_numeric_rule`: match the numeric format,
then require only that the captured regex compiles
(`_is_valid_regex`). -/
def parse_numeric_rule (env : Env) (part : String) (id : Option Int) (index : Nat)
    (errs : List BErr) : Option (String × String × String × String) × List BErr :=
  match numericFormatMatch (pyStrip part) with
  | none =>
    (none, errs ++ [mkErr INVALID_COMPARE_EXPRESSION_e ("Numeric rule format error: " ++ part) id index])
  | some (regex, operator, number) =>
    if !env.compiles regex then
      (none, errs ++ [mkErr INVALID_COMPARE_EXPRESSION_e ("Invalid regex in numeric rule: " ++ regex) id index])
    else
      (some ("n", regex, operator, number), errs)

/-- Threads a successfully parsed `ContentRule` onto the rest of the loop. -/
def consCR (c : ContentRule) : Option (List ContentRule) × List BErr → Option (List ContentRule) × List BErr
  | (some l, errs) => (some (c :: l), errs)
  | (none, errs) => (none, errs)

/-- The `for part in rule.split(" && ")` loop of
`SemanticTreeBuilder.parse_content_rule`. -/
def parse_content_parts (env : Env) (caller : String) (id : Option Int) (index : Nat) :
    List String → List BErr → Option (List ContentRule) × List BErr
  | [], errs => (some [], errs)
  | part0 :: rest, errs =>
    let (negation, part) := check_negation (pyStrip part0)
    if caller == "registry" && part != "" && !pyStartsWith part "r:" && !pyStartsWith part "n:" then
      consCR ⟨none, part, none, none, negation⟩
        (parse_content_parts env caller id index rest errs)
    else if pyStartsWith part "r:" then
      let value := pyStrip (pyDrop part 2)
      if !env.compiles value then
        (none, errs ++ [mkErr INVALID_CONTENT_OPERATOR_e ("Invalid regex in rule: " ++ part) id index])
      else
        consCR ⟨some "r", value, none, none, negation⟩
          (parse_content_parts env caller id index rest errs)
    else if pyStartsWith part "n:" then
      match parse_numeric_rule env (pyStrip (pyDrop part 2)) id index errs with
      | (none, errs2) => (none, errs2)
      | (some (op, value, compare_operator, compare_value), errs2) =>
        consCR ⟨some op, value, some compare_operator, some compare_value, negation⟩
          (parse_content_parts env caller id index rest errs2)
    else
      (none, errs ++ [mkErr INVALID_CONTENT_OPERATOR_e ("Rule must start with \x27r:\x27 or \x27n:\x27: " ++ part) id index])

/-- Embeds `SemanticTreeBuilder.parse_content_rule`. -/
def parse_content_rule (env : Env) (rule caller : String) (id : Option Int) (index : Nat)
    (errs : List BErr) : Option (List ContentRule) × List BErr :=
  parse_content_parts env caller id index (pySplit rule " && ") errs

/-- Threads a successfully parsed `FRule` onto the rest of the loop. -/
def consFR (c : FRule) : Option (List FRule) × List BErr → Option (List FRule) × List BErr
  | (some l, errs) => (some (c :: l), errs)
  | (none, errs) => (none, errs)

/-- The `for file in file_targets` loop of `parse_file_rule`; `cpart` is the
right-hand side of ` -> ` when present (re-parsed per target, as in the
source). -/
def parse_file_targets (env : Env) (cpart : Option String) (negation : Bool)
    (id : Option Int) (index : Nat) :
    List String → List BErr → Option (List FRule) × List BErr
  | [], errs => (some [], errs)
  | file0 :: rest, errs =>
    let file := pyStrip file0
    if file == "" then parse_file_targets env cpart negation id index rest errs
    else
      match cpart with
      | none =>
        consFR ⟨⟨"f", some file, none, none⟩, [], negation⟩
          (parse_file_targets env cpart negation id index rest errs)
      | some cp =>
        match parse_content_rule env cp "file" id index errs with
        | (none, errs2) =>
          (none, errs2 ++ [mkErr INVALID_FILE_RULE_e ("Failed to parse content rules: " ++ cp) id index])
        | (some content_rules, errs2) =>
          consFR ⟨⟨"f", some file, none, none⟩, content_rules, negation⟩
            (parse_file_targets env cpart negation id index rest errs2)

/-- Embeds `SemanticTreeBuilder.parse_file_rule`: split on ` -> `, reject more than
one arrow or an empty target list, then expand the comma-separated targets
into one `FileRule` each. -/
def parse_file_rule (env : Env) (rule : String) (negation : Bool) (id : Option Int)
    (index : Nat) (errs : List BErr) : Option (List FRule) × List BErr :=
  let parts := pySplit rule " -> "
  if parts.length == 0 || parts.length > 2 || pyStrip (parts.headD "") == "" then
    (none, errs ++ [mkErr INVALID_FILE_RULE_e ("Invalid rule format: " ++ rule) id index])
  else
    parse_file_targets env (if parts.length == 2 then parts.get? 1 else none) negation id index
      (pySplit (parts.headD "") ",") errs

/-- Threads a successfully parsed `TypedRule` onto the rest of a loop. -/
def consTR (c : TypedRule) : Option (List TypedRule) × List BErr → Option (List TypedRule) × List BErr
  | (some l, errs) => (some (c :: l), errs)
  | (none, errs) => (none, errs)

/-- The `for directory in directory_targets` loop of
`parse_directory_rule`; `fpart?` and `cpart?` are `parts[1]` / `parts[2]`
when present. -/
def parse_directory_targets (env : Env) (fpart? cpart? : Option String) (negation : Bool)
    (id : Option Int) (index : Nat) :
    List String → List BErr → Option (List TypedRule) × List BErr
  | [], errs => (some [], errs)
  | dir0 :: rest, errs =>
    let directory := pyStrip dir0
    if directory == "" then parse_directory_targets env fpart? cpart? negation id index rest errs
    else
      let execution_node_d : ExecNode := ⟨"d", some directory, none, none⟩
      match fpart? with
      | none =>
        consTR (.dir execution_node_d [] negation)
          (parse_directory_targets env fpart? cpart? negation id index rest errs)
      | some fpart0 =>
        let file_rule_part0 := pyStrip fpart0
        let negation_f := pyStartsWith file_rule_part0 "!"
        let file_rule_part := if negation_f then pyDrop file_rule_part0 1 else file_rule_part0
        let execution_node_f : ExecNode :=
          if pyStartsWith file_rule_part "r:" then
            ⟨"f", none, none, some (pyStrip (pyDrop file_rule_part 2))⟩
          else
            ⟨"f", some file_rule_part, none, none⟩
        match cpart? with
        | none =>
          consTR (.dir execution_node_d [⟨execution_node_f, [], negation_f⟩] negation)
            (parse_directory_targets env fpart? cpart? negation id index rest errs)
        | some cp =>
          match parse_content_rule env cp "directory" id index errs with
          | (none, errs2) =>
            (none, errs2 ++ [mkErr INVALID_DIRECTORY_RULE_e ("Failed to parse content rules: " ++ cp) id index])
          | (some content_rules, errs2) =>
            consTR (.dir execution_node_d [⟨execution_node_f, content_rules, negation_f⟩] negation)
              (parse_directory_targets env fpart? cpart? negation id index rest errs2)

/-- Embeds `SemanticTreeBuilder.parse_directory_rule`: split on ` -> `, expand the
comma-separated directory list; each emitted `DirectoryRule` carries at most
one inner `FileRule` (built from `parts[1]`, with its own `!` negation and
optional `r:` pattern, and the content rules from `parts[2]`). -/
def parse_directory_rule (env : Env) (rule : String) (negation : Bool) (id : Option Int)
    (index : Nat) (errs : List BErr) : Option (List TypedRule) × List BErr :=
  let parts := pySplit rule " -> "
  if parts.length == 0 || pyStrip (parts.headD "") == "" then
    (none, errs ++ [mkErr INVALID_DIRECTORY_RULE_e ("Invalid rule format: " ++ rule) id index])
  else
    parse_directory_targets env (parts.get? 1) (parts.get? 2) negation id index
      (pySplit (parts.headD "") ",") errs

/-- Embeds `SemanticTreeBuilder.parse_command_rule`: normalise the stray
` -> -> `, require a content layer, parse the first (and optional second)
content conjunction and flatten them. -/
def parse_command_rule (env : Env) (rule : String) (negation : Bool) (id : Option Int)
    (index : Nat) (errs : List BErr) : Option TypedRule × List BErr :=
  let rule := pyReplace rule " -> -> " " -> "
  let parts := pySplit rule " -> "
  if parts.length < 2 then
    (none, errs ++ [mkErr INVALID_COMMAND_RULE_e rule id index])
  else
    let execution_node : ExecNode := ⟨"c", some (pyStrip (parts.headD "")), none, none⟩
    match parse_content_rule env (pyStrip ((parts.get? 1).getD "")) "command" id index errs with
    | (none, errs2) => (none, errs2)
    | (some first_level, errs2) =>
      if parts.length > 2 then
        let second_level_rules := pyStrip (pyJoin " -> " (parts.drop 2))
        match parse_content_rule env second_level_rules "command" id index errs2 with
        | (none, errs3) =>
          (none, errs3 ++ [mkErr INVALID_COMMAND_RULE_e ("Failed to parse second level content rules: " ++ second_level_rules) id index])
        | (some second_level, errs3) =>
          (some (.cmd execution_node (first_level ++ second_level) negation), errs3)
      else
        (some (.cmd execution_node first_level negation), errs2)

/-- Embeds `SemanticTreeBuilder.parse_process_rule` (never fails). -/
def parse_process_rule (rule : String) (negation : Bool) : TypedRule :=
  if pyStartsWith rule "r:" then
    .proc ⟨"p", none, none, some (pyDrop rule 2)⟩ negation
  else
    .proc ⟨"p", some rule, none, none⟩ negation

/-- Embeds `SemanticTreeBuilder.parse_registry_rule`. -/
def parse_registry_rule (env : Env) (rule : String) (negation : Bool) (id : Option Int)
    (index : Nat) (errs : List BErr) : Option TypedRule × List BErr :=
  let parts := pySplit rule " -> "
  if parts.length < 1 then
    (none, errs ++ [mkErr INVALID_REGISTRY_RULE_e rule id index])
  else
    let main_target := parts.headD ""
    let sub_target := if parts.length > 1 then parts.get? 1 else none
    if parts.length > 2 then
      match parse_content_rule env (pyJoin " -> " (parts.drop 2)) "registry" id index errs with
      | (none, errs2) => (none, errs2 ++ [mkErr INVALID_REGISTRY_RULE_e rule id index])
      | (some content_rules, errs2) =>
        (some (.reg ⟨"r", some main_target, sub_target, none⟩ content_rules negation), errs2)
    else
      (some (.reg ⟨"r", some main_target, sub_target, none⟩ [] negation), errs)

/-- The kind-tag dispatch of `SemanticTreeBuilder.parse_rule`.  The
list-valued parsers return their list; the single-rule kinds are wrapped in
a one-element list (`build_tree` extends or appends accordingly, and treats
`None` and the empty list alike). -/
def parse_rule_dispatch (env : Env) (rule : String) (negation : Bool) (id : Option Int)
    (index : Nat) (errs : List BErr) : Option (List TypedRule) × List BErr :=
  if pyStartsWith rule "f:" then
    match parse_file_rule env (pyDrop rule 2) negation id index errs with
    | (none, errs2) => (none, errs2)
    | (some frs, errs2) => (some (frs.map TypedRule.file), errs2)
  else if pyStartsWith rule "d:" then
    parse_directory_rule env (pyDrop rule 2) negation id index errs
  else if pyStartsWith rule "c:" then
    match parse_command_rule env (pyDrop rule 2) negation id index errs with
    | (none, errs2) => (none, errs2)
    | (some tr, errs2) => (some [tr], errs2)
  else if pyStartsWith rule "p:" then
    (some [parse_process_rule (pyDrop rule 2) negation], errs)
  else if pyStartsWith rule "r:" then
    match parse_registry_rule env (pyDrop rule 2) negation id index errs with
    | (none, errs2) => (none, errs2)
    | (some tr, errs2) => (some [tr], errs2)
  else
    (none, errs ++ [mkErr UNKNOWN_RULE_TYPE_e rule id index])

/-- Embeds `SemanticTreeBuilder.parse_rule`: strip the optional `not ` prefix, then
dispatch on the kind tag. -/
def parse_rule (env : Env) (rule : String) (id : Option Int) (index : Nat)
    (errs : List BErr) : Option (List TypedRule) × List BErr :=
  let negation := pyStartsWith rule "not "
  let rule := if negation then pyDrop rule 4 else rule
  parse_rule_dispatch env rule negation id index errs

/-- The `for index, rule in enumerate(rules)` loop of `build_tree` (1-based
rule numbers; a `None` or empty parse contributes nothing). -/
def build_rules (env : Env) (id : Option Int) : List String → Nat → List BErr → List TypedRule × List BErr
  | [], _, errs => ([], errs)
  | rule :: rest, index, errs =>
    match parse_rule env rule id index errs with
    | (some l, errs2) =>
      let (others, errs3) := build_rules env id rest (index + 1) errs2
      (l ++ others, errs3)
    | (none, errs2) => build_rules env id rest (index + 1) errs2

/-- The decoded check object handed to `build_tree` (`id = none` stands for
any JSON value that is not an `int`). -/
structure CheckObj where
  id : Option Int
  condition : Option String
  rules : List String
  deriving Repr, DecidableEq

/-- The builder's `ConditionNode`. -/
structure ConditionNode where
  id : Int
  condition : String
  rules : List TypedRule
  deriving Repr, DecidableEq

/-- Embeds `SemanticTreeBuilder.build_tree`: validate id and condition, parse every
rule while accumulating diagnostics, and withhold the `ConditionNode` when
any accumulated diagnostic carries this check's id. -/
def build_tree (env : Env) (obj : CheckObj) (errs : List BErr) : Option ConditionNode × List BErr :=
  match obj.id with
  | none => (none, errs ++ [mkErr INVALID_ID_e ("Invalid id type: " ++ pyStr none) none 0])
  | some idv =>
    if obj.condition != some "all" && obj.condition != some "any" && obj.condition != some "none" then
      (none, errs ++ [mkErr INVALID_CONDITION_e ("Invalid condition: " ++ pyStr obj.condition) (some idv) 0])
    else
      let (parsed_rules, errs2) := build_rules env (some idv) obj.rules 1 errs
      if errs2.any (fun e => e.id == some idv) then
        (none, errs2)
      else
        (some ⟨idv, obj.condition.getD "", parsed_rules⟩, errs2)

/-- The executor's view of a built check (`tree_to_json` then
`execute_tree`). -/
def ConditionNode.toCheck (c : ConditionNode) : Check :=
  ⟨c.id, c.condition, c.rules.map TypedRule.toERule⟩

/-! ### The demo backend's ContentRuleChecker
(`src/demo/backend/semantic_tree_executor.py`) — same data model, but its
checker has no rule-level negation parameter, its `numeric_compare` reads
attributes (`self.compare_operator`, `self.compare_value`) that are never
set, its `read_and_check_file` has no empty-body special case and uses the
raw, unstripped `execute_command`, and its `check_file_content` reduces the
per-file booleans with `all` instead of `any`. -/

namespace Demo

/-- Demo `ContentRuleChecker.numeric_compare`: no match is `False`; on a
match, `int(match.group(1))` may already raise, and the subsequent
`self.compare_value` read always raises `AttributeError` (the checker never
sets it), re-raised by the `except` clause — so every match raises. -/
def numeric_compare (env : Env) (content value : String) : Except String Bool :=
  match env.regroups value content with
  | none => .ok false
  | some _ => .error "numeric compare raised: no attribute compare_value"

/-- Demo `ContentRuleChecker._check_line_against_rule`: negation is applied
after the operator dispatch, except for an invalid operator which returns
`False` directly. -/
def check_line_against_rule (env : Env) (line : String) (rule : ContentRule) : Except String Bool :=
  if rule.content_operator == some "r" then
    .ok (if rule.negation then !(research env rule.value line) else research env rule.value line)
  else if rule.content_operator == some "n" then
    match numeric_compare env line rule.value with
    | .error e => .error e
    | .ok m => .ok (if rule.negation then !m else m)
  else if rule.content_operator == none then
    .ok (if rule.negation then !(strContains line rule.value) else strContains line rule.value)
  else
    .ok false

/-- The `all(...)` generator inside demo `_check_lines` (short-circuits on
the first `False`; exceptions propagate). -/
def line_all_rules (env : Env) (line : String) : List ContentRule → Except String Bool
  | [] => .ok true
  | rule :: rest =>
    match check_line_against_rule env line rule with
    | .error e => .error e
    | .ok m => if m then line_all_rules env line rest else .ok false

/-- Demo `ContentRuleChecker._check_lines`: existential over lines, no
negation layer. -/
def check_lines (env : Env) (content_rules : List ContentRule) : List String → Except String Bool
  | [] => .ok false
  | line :: rest =>
    match line_all_rules env line content_rules with
    | .error e => .error e
    | .ok m => if m then .ok true else check_lines env content_rules rest

/-- Demo `ContentRuleChecker.read_and_check_file`: manual sudo wrapper with
the hard-coded password, raw `execute_command` (no stripping), no
empty-body special case. -/
def read_and_check_file (env : Env) (content_rules : List ContentRule) (os_type : String)
    (file_path : String) : ContentCheckResult :=
  match build_read_file_command os_type file_path with
  | .error e => ⟨false, some (UNKNOWN_ERROR_msg ++ ": " ++ e)⟩
  | .ok command0 =>
    let command :=
      if os_type == "linux" then "export LC_ALL=C && echo systemadmin!23 | sudo -S " ++ command0
      else command0
    let (output, error, exit_status) := env.ssh command
    if exit_status != 0 then
      ⟨false, some ("Failed to read file " ++ file_path ++ ": " ++ error)⟩
    else
      match check_lines env content_rules (pySplitlines output) with
      | .ok b => ⟨b, none⟩
      | .error e => ⟨false, some (UNKNOWN_ERROR_msg ++ ": " ++ e)⟩

/-- Demo `ContentRuleChecker.check_file_content`: identical to the core
version except that the final reduction over the per-file booleans is
`all(results)`. -/
def check_file_content (env : Env) (content_rules : List ContentRule) (os_type : String)
    (content : PyContent) : ContentCheckResult :=
  let files :=
    match content with
    | .str s => parse_content env s
    | .lst l => l
  if files.isEmpty then
    ⟨false, some "No files matched the pattern."⟩
  else
    let results := files.map fun file_path =>
      (read_and_check_file env content_rules os_type file_path).success
    ⟨results.all id, none⟩

end Demo

/-! ### Derived semantic shorthands used by the theorems -/

/-- The value of one content predicate on one line after its per-predicate
negation: the result of `_does_line_match_rule` (only defined when it does
not raise; `false` as the don't-care default) xor-ed with the rule's own
negation flag. -/
def rule_holds (env : Env) (line : String) (r : ContentRule) : Bool :=
  ((does_line_match_rule env line r).toOption.getD false) != r.negation

/-- A line matches iff every content rule holds on it. -/
def line_holds (env : Env) (content_rules : List ContentRule) (line : String) : Bool :=
  content_rules.all fun r => rule_holds env line r

/-! ### Concrete environments for witnesses and counterexamples -/

/-- A trivial environment: every shell command yields `("", "", 0)`, no
regex ever matches, every regex compiles, none has a capture group. -/
def env0 : Env where
  ssh := fun _ => ("", "", 0)
  regroups := fun _ _ => none
  compiles := fun _ => true
  hasGroup := fun _ => false
  jsonLoadsList := fun _ => none
  jsonDumps := fun _ => ""
  subSudoPrompt := fun e => e
  password := "pw"
  connectOk := true

/-- Environment for the numeric-crash scenarios: the pattern `num (.+)`
matches line `"a"` capturing `"xyz"` (not an integer) and line `"b"`
capturing `"3"`; it matches no other line.  (With Python `re`,
`re.search("num (.+)", "num xyz")` behaves this way; the line names are
abbreviated.) -/
def envC6 : Env :=
  { env0 with
    regroups := fun pat s =>
      if pat == "num (.+)" then
        if s == "a" then some [some "xyz"]
        else if s == "b" then some [some "3"]
        else none
      else none }

/-- The numeric predicate of `n:num (.+) compare <= 4`. -/
def c6rule : ContentRule := ⟨some "n", "num (.+)", some "<=", some "4", false⟩

/-- Environment for the file-set scenarios: under the demo backend's
hard-coded elevation wrapper, file `/a` has body `"x"` and file `/b` has
body `"y"`; every other command fails. -/
def envC3 : Env :=
  { env0 with
    ssh := fun c =>
      if c == "export LC_ALL=C && echo systemadmin!23 | sudo -S cat /a" then ("x", "", 0)
      else if c == "export LC_ALL=C && echo systemadmin!23 | sudo -S cat /b" then ("y", "", 0)
      else ("", "", 1) }

/-- The substring predicate matching bodies that contain `"x"`. -/
def c3rule : ContentRule := ⟨none, "x", none, none, false⟩

/-- Environment for the directory-rule scenarios: the target is Linux,
directory `/x` lists non-empty, file `/f` exists and its body is
`"hello"`. -/
def envC2 : Env :=
  { env0 with
    ssh := fun c =>
      if c == "uname" then ("Linux", "", 0)
      else if c == "export LC_ALL=C && echo pw | sudo -S ls /x" then ("f1", "", 0)
      else if c == "export LC_ALL=C && echo pw | sudo -S test -f /f && echo \x27exists\x27 || echo \x27not exists\x27" then ("exists", "", 0)
      else if c == "export LC_ALL=C && echo pw | sudo -S cat /f" then ("hello", "", 0)
      else ("", "", 1) }

/-- Inner `FileRule` on `/f` with no content rules, inner negation set. -/
def c2innerNeg : FRule := ⟨⟨"f", some "/f", none, none⟩, [], true⟩

/-- The same inner `FileRule` with inner negation cleared. -/
def c2innerPlain : FRule := ⟨⟨"f", some "/f", none, none⟩, [], false⟩

/-- Directory rule on `/x` carrying the negated inner `FileRule`. -/
def c2dirNeg : ERule := ⟨⟨"d", some "/x", none, none⟩, false, [], [c2innerNeg]⟩

/-- Directory rule on `/x` carrying the plain inner `FileRule`. -/
def c2dirPlain : ERule := ⟨⟨"d", some "/x", none, none⟩, false, [], [c2innerPlain]⟩

/-- Environment whose target answers `uname` with `Linux` and fails every
other command. -/
def envC7 : Env :=
  { env0 with ssh := fun c => if c == "uname" then ("Linux", "", 0) else ("", "", 1) }

/-- A plain file-existence rule used in the C7 scenario. -/
def c7rule : ERule := ⟨⟨"f", some "/etc/hosts", none, none⟩, false, [], []⟩

/-- Environment whose target answers `uname` with `Windows NT` and fails
every other command. -/
def envC10 : Env :=
  { env0 with ssh := fun c => if c == "uname" then ("Windows NT", "", 0) else ("", "", 1) }

/-- A second environment agreeing with `envC10` only on `uname` (every
other command would answer differently). -/
def envC10b : Env :=
  { env0 with
    password := "other"
    ssh := fun c => if c == "uname" then ("Windows NT", "", 0) else ("BOOM", "", 0) }

/-- Environment whose regex compiler rejects exactly the pattern `(bad`. -/
def envC5 : Env := { env0 with compiles := fun r => r != "(bad" }

/-- The comma-expanded check used as the C9 witness. -/
def c9obj : CheckObj := ⟨some 1, some "all", ["f:/a,/b"]⟩

/-- The tree the builder produces for `c9obj`: two `FileRules`. -/
def c9cond : ConditionNode :=
  ⟨1, "all", [.file ⟨⟨"f", some "/a", none, none⟩, [], false⟩,
              .file ⟨⟨"f", some "/b", none, none⟩, [], false⟩]⟩


/-! ## General lemmas about the matcher loops -/

/-- Decidable equality for `Except`, so that witnesses can be settled by
`decide`. -/
instance {ε α : Type _} [DecidableEq ε] [DecidableEq α] : DecidableEq (Except ε α)
  | .ok a, .ok b =>
    match decEq a b with
    | isTrue h => isTrue (by rw [h])
    | isFalse h => isFalse (by intro hc; cases hc; exact h rfl)
  | .ok _, .error _ => isFalse (by intro hc; cases hc)
  | .error _, .ok _ => isFalse (by intro hc; cases hc)
  | .error a, .error b =>
    match decEq a b with
    | isTrue h => isTrue (by rw [h])
    | isFalse h => isFalse (by intro hc; cases hc; exact h rfl)

/-- An `isOk` exceptionless evaluation has an `ok` value. -/
theorem exists_ok_of_isOk {e : Except String Bool} (h : e.isOk = true) : ∃ b, e = .ok b := by
  cases e with
  | ok b => exact ⟨b, rfl⟩
  | error _ => simp [Except.isOk, Except.toBool] at h

/-- When no content rule raises on `line`, the inner loop of `_check_lines`
computes the conjunction of the per-rule outcomes (each rule's own negation
applied first). -/
theorem line_match_rules_ok (env : Env) (line : String) :
    ∀ rules : List ContentRule,
      (∀ r ∈ rules, (does_line_match_rule env line r).isOk = true) →
      line_match_rules env line rules = .ok (rules.all (rule_holds env line))
  | [], _ => rfl
  | r :: rs, h => by
    obtain ⟨b, hb⟩ := exists_ok_of_isOk (h r (List.mem_cons_self r rs))
    have ih := line_match_rules_ok env line rs (fun r' hr' => h r' (List.mem_cons_of_mem _ hr'))
    have hrh : rule_holds env line r = (if r.negation then !b else b) := by
      rw [rule_holds, hb]
      cases b <;> cases r.negation <;> rfl
    simp only [line_match_rules, hb, List.all_cons, hrh]
    cases hv : (if r.negation then !b else b) with
    | false => simp [hv]
    | true => simp [hv, ih]

/-- When no content rule raises on any line, the outer loop of
`_check_lines` computes the existential over lines of the per-line
conjunction. -/
theorem check_lines_any_ok (env : Env) (rules : List ContentRule) :
    ∀ lines : List String,
      (∀ l ∈ lines, ∀ r ∈ rules, (does_line_match_rule env l r).isOk = true) →
      check_lines_any env rules lines = .ok (lines.any (line_holds env rules))
  | [], _ => rfl
  | l :: ls, h => by
    have hl := line_match_rules_ok env l rules (h l (List.mem_cons_self l ls))
    have ih := check_lines_any_ok env rules ls (fun l' hl' => h l' (List.mem_cons_of_mem _ hl'))
    have heq : rules.all (rule_holds env l) = line_holds env rules l := rfl
    rw [heq] at hl
    simp only [check_lines_any, hl, List.any_cons]
    cases hv : line_holds env rules l with
    | false => simp [hv, ih]
    | true => simp [hv]

/-! ## C1 -/

/-- Claim C1: Content matching is line-scoped: provided no content predicate
raises on the given lines, `_check_lines` returns exactly
`(∃ line, ∀ rule, rule holds on the line after its per-predicate negation)`
xor-ed with the owning rule's rule-level negation flag: a line matches iff
every `ContentRule` holds on it (conjunction), the body matches iff some
line matches (existential), and the body-level boolean is flipped iff the
rule-level negation flag is set. -/
theorem c1_content_matching (env : Env) (content_rules : List ContentRule)
    (rule_negation : Bool) (lines : List String)
    (h : ∀ l ∈ lines, ∀ r ∈ content_rules, (does_line_match_rule env l r).isOk = true) :
    check_lines env content_rules rule_negation lines =
      .ok ((lines.any (line_holds env content_rules)).xor rule_negation) := by
  unfold check_lines
  rw [check_lines_any_ok env content_rules lines h]
  cases rule_negation <;> cases hv : lines.any (line_holds env content_rules) <;> rfl

/-- Witness for C1: two substring predicates (the second negated) on a
two-line body under rule-level negation; the theorem's hypothesis is
discharged by evaluation and the closed instance evaluates to
`.ok false` (second line matches, then the rule-level flag flips). -/
theorem c1_content_matching_witness :
    check_lines env0 [⟨none, "ssh", none, none, false⟩, ⟨none, "Protocol", none, none, true⟩]
      true ["Protocol 2", "sshd on"] = .ok false := by
  rw [c1_content_matching env0 _ true _ (by decide)]
  decide

/-! ## C4 -/

/-- Claim C4: Empty-input policy of the content matcher: when the elevated
`cat` returns an empty body (zero lines) with exit status `0`,
`read_and_check_file` returns success when the rule has no `ContentRules`;
with at least one `ContentRule` the zero-line body matches `false` before
the rule-level negation is applied, so the final result is exactly the
rule-level negation flag (a set flag flips that `false` to `true`). -/
theorem c4_empty_input_policy (env : Env) (content_rules : List ContentRule)
    (rule_negation : Bool) (file_path err : String)
    (h : env.ssh ("export LC_ALL=C && echo " ++ env.password ++ " | sudo -S " ++ ("cat " ++ file_path))
          = ("", err, 0)) :
    read_and_check_file env content_rules rule_negation "linux" file_path =
      if content_rules.isEmpty then ⟨true, none⟩ else ⟨rule_negation, none⟩ := by
  have hb : build_read_file_command "linux" file_path = .ok ("cat " ++ file_path) := rfl
  have hw : execute_command_with_sudo env ("cat " ++ file_path) ("linux" == "linux") true
      = ("", pyStrip (pyStrip err), 0) := by
    simp [execute_command_with_sudo, execute_command, h]
    rfl
  simp only [read_and_check_file, hb, hw]
  cases content_rules with
  | nil => rfl
  | cons r rs => cases rule_negation <;> rfl

/-- Witness for C4: one content rule, rule-level negation set, empty file
body; the result is flipped to success. -/
theorem c4_empty_input_policy_witness :
    read_and_check_file env0 [⟨none, "x", none, none, false⟩] true "linux" "/etc/f"
      = ⟨true, none⟩ := by
  rw [c4_empty_input_policy env0 _ true "/etc/f" "" rfl]
  rfl

/-! ## C6 -/

/-- Claim C6, corrected: When a numeric predicate's captured group fails to
parse as an integer, `numeric_compare` raises; the exception propagates out
of `_check_lines` (no later line is inspected and the rule-level negation is
not applied), and the matcher's outer boundary (`check_command_output`)
catches it and converts it into a failed `ContentCheckResult` — so no
exception escapes the matcher, but evaluation does *not* proceed to the
remaining lines of the body. -/
theorem c6_numeric_crash_amended :
    (∀ (env : Env) (rules : List ContentRule) (neg : Bool) (pre : List String)
       (bad : String) (post : List String) (e : String),
       (∀ l ∈ pre, line_match_rules env l rules = .ok false) →
       line_match_rules env bad rules = .error e →
       check_lines env rules neg (pre ++ bad :: post) = .error e)
    ∧ (∀ (env : Env) (rules : List ContentRule) (neg : Bool) (content e : String),
       check_lines env rules neg (pySplitlines content) = .error e →
       check_command_output env rules neg content
         = ⟨false, some (UNKNOWN_ERROR_msg ++ ": " ++ e)⟩) := by
  constructor
  · intro env rules neg pre bad post e hpre hbad
    have hany : check_lines_any env rules (pre ++ bad :: post) = .error e := by
      induction pre with
      | nil => simp only [List.nil_append, check_lines_any, hbad]
      | cons l ls ih =>
        have hl := hpre l (List.mem_cons_self l ls)
        simp only [List.cons_append, check_lines_any, hl]
        exact ih (fun l' hl' => hpre l' (List.mem_cons_of_mem _ hl'))
    simp only [check_lines, hany]
  · intro env rules neg content e h
    simp only [check_command_output, h]

/-- Witness for C6's amended statement: with a first line that does not
match, a second whose capture is non-numeric and a third that would match,
the whole body check raises and the boundary converts it into a failed
result. -/
theorem c6_numeric_crash_amended_witness :
    check_lines envC6 [c6rule] true ["a0", "a", "b"]
      = .error "numeric compare raised: invalid literal for int()"
    ∧ check_command_output envC6 [c6rule] true "a0\na\nb"
      = ⟨false, some (UNKNOWN_ERROR_msg ++ ": numeric compare raised: invalid literal for int()")⟩ := by
  constructor
  · exact c6_numeric_crash_amended.1 envC6 [c6rule] true ["a0"] "a" ["b"] _ (by decide) (by decide)
  · exact c6_numeric_crash_amended.2 envC6 [c6rule] true "a0\na\nb" _ (by decide)

/-- Claim C6, counterexample: The claim predicts that the non-integer capture
on line `"a"` merely makes the predicate false there and that evaluation
proceeds to line `"b"` (which satisfies the predicate), so the body should
match.  The code instead aborts the body with a failed `UNKNOWN_ERROR`
result: the body `"a\nb"` yields `success = false`, even though the body
`"b"` alone yields `success = true`. -/
theorem c6_numeric_crash_counterexample :
    check_command_output envC6 [c6rule] false "a\nb"
      = ⟨false, some (UNKNOWN_ERROR_msg ++ ": numeric compare raised: invalid literal for int()")⟩
    ∧ check_command_output envC6 [c6rule] false "b" = ⟨true, none⟩ := by
  decide

/-! ## C3 -/

/-- A small lemma: mapping a boolean-valued function and reducing with
`any id` is the same as `any f`. -/
theorem list_any_map_id {α : Type _} (f : α → Bool) :
    ∀ l : List α, (l.map f).any id = l.any f
  | [] => rfl
  | a :: t => by simp [list_any_map_id f t]

/-- A small lemma: mapping a boolean-valued function and reducing with
`all id` is the same as `all f`. -/
theorem list_all_map_id {α : Type _} (f : α → Bool) :
    ∀ l : List α, (l.map f).all id = l.all f
  | [] => rfl
  | a :: t => by simp [list_all_map_id f t]

/-- Claim C3, amended: For every non-empty list of discovered files and every
list of `ContentRules`, the *core* executor's `check_file_content` applies
`read_and_check_file` to each file in turn and succeeds iff at least one
file matches (existential, as the spec's contract states); the *demo*
backend's `check_file_content` instead succeeds iff every file matches
(universal). -/
theorem c3_fileset_amended (env : Env) (content_rules : List ContentRule)
    (rule_negation : Bool) (os_type : String) (files : List String)
    (hne : files ≠ []) :
    check_file_content env content_rules rule_negation os_type (.lst files)
      = ⟨files.any (fun fp => (read_and_check_file env content_rules rule_negation os_type fp).success), none⟩
    ∧ Demo.check_file_content env content_rules os_type (.lst files)
      = ⟨files.all (fun fp => (Demo.read_and_check_file env content_rules os_type fp).success), none⟩ := by
  have hni : files.isEmpty = false := by simpa [List.isEmpty_eq_false] using hne
  constructor
  · simp [check_file_content, hni, list_any_map_id]
  · simp [Demo.check_file_content, hni, list_all_map_id]

/-- Witness for C3's amended statement at a concrete two-file set. -/
theorem c3_fileset_amended_witness :
    check_file_content envC3 [c3rule] false "linux" (.lst ["/a", "/b"]) = ⟨false, none⟩
    ∧ Demo.check_file_content envC3 [c3rule] "linux" (.lst ["/a", "/b"]) = ⟨false, none⟩ := by
  have h := c3_fileset_amended envC3 [c3rule] false "linux" ["/a", "/b"] (by decide)
  refine ⟨?_, ?_⟩
  · rw [h.1]; decide
  · rw [h.2]; decide

/-- Claim C3, counterexample: Under the demo backend's matcher, with two
discovered files of which exactly the first matches, the `FileRule`
evaluates to `false` although at least one discovered file matches — the
claimed existential contract fails on the demo code path. -/
theorem c3_fileset_counterexample :
    Demo.check_file_content envC3 [c3rule] "linux" (.lst ["/a", "/b"]) = ⟨false, none⟩
    ∧ (Demo.read_and_check_file envC3 [c3rule] "linux" "/a").success = true := by
  decide

/-! ## C2 -/

/-- Claim C2, counterexample: A directory rule whose inner `FileRule` carries
`negation = true` over a file whose (rule-free) content check succeeds: the
claim says the inner negation flips the inner file-match boolean before the
directory rule consumes it, so the rule's boolean should be `false`; the
executor ignores the inner flag entirely and produces `true`, identically to
the same rule with the inner negation cleared. -/
theorem c2_negation_counterexample :
    execute_rules envC2 [c2dirNeg] "linux" = [true]
    ∧ execute_rules envC2 [c2dirPlain] "linux" = [true] := by
  decide

/-- Claim C2, amended: The executor never consults the inner `FileRule`'s
negation flag: `_process_file_rules` is invariant under arbitrary rewrites
of the inner negation flags.  The directory rule's own negation is what is
passed as the matcher's rule-level negation parameter: for a directory rule
with one inner file rule whose directory probe succeeds, the rule's single
boolean is the content-check of the inner node's output under the
*directory* rule's negation. -/
theorem c2_negation_amended :
    (∀ (env : Env) (file_rules : List FRule) (dirout : Option String) (os_type : String)
       (neg : Bool) (bf : FRule → Bool),
       process_file_rules env
           (file_rules.map fun fr => ⟨fr.execution_node, fr.content_rules, bf fr⟩)
           dirout os_type neg
         = process_file_rules env file_rules dirout os_type neg)
    ∧ (∀ (env : Env) (rule : ERule) (os_type : String) (fr : FRule),
       rule.execution_node.type = "d" →
       rule.file_rules = [fr] →
       (execute_node env rule.execution_node os_type).success = true →
       execute_one_rule env rule os_type
         = [if !(execute_node env fr.execution_node os_type).success then false
            else check_content_rules env fr.execution_node.type fr.content_rules
              (execute_node env fr.execution_node os_type).output os_type rule.negation]) := by
  constructor
  · intro env file_rules dirout os_type neg bf
    unfold process_file_rules
    rw [List.map_map]
    congr 1
  · intro env rule os_type fr hd hfr hsucc
    simp only [execute_one_rule]
    rw [hsucc, hd, hfr]
    simp [process_file_rules]

/-- Witness for C2's amended statement: rewriting the inner negation flag
leaves `_process_file_rules` unchanged, and the concrete directory rule's
boolean equals the inner content check under the directory's negation. -/
theorem c2_negation_amended_witness :
    process_file_rules envC2 [c2innerNeg] (some "/x") "linux" false
      = process_file_rules envC2 [c2innerPlain] (some "/x") "linux" false
    ∧ execute_one_rule envC2 c2dirNeg "linux" = [true] := by
  constructor
  · exact c2_negation_amended.1 envC2 [c2innerPlain] (some "/x") "linux" false (fun _ => true)
  · rw [c2_negation_amended.2 envC2 c2dirNeg "linux" c2innerNeg rfl rfl (by decide)]
    decide

/-! ## C7 -/

/-- Claim C7, counterexample: Declared family `windows` against a Linux
target: the claim says the first probe short-circuits the *run* with
`MISMATCH_OS_TYPE`, not proceeding to the remaining rules and checks.  The
code instead records `false` for every rule of every check and completes
the run successfully: both rules of check 1 and the rule of check 2 are all
evaluated. -/
theorem c7_mismatch_counterexample :
    execute_tree envC7 [⟨1, "all", [c7rule, c7rule]⟩, ⟨2, "any", [c7rule]⟩] "windows"
      = .ok [(1, ⟨"fail", "all", [false, false]⟩), (2, ⟨"fail", "any", [false]⟩)] := by
  decide

/-- Claim C7, amended: Before dispatching any node the executor runs `uname`
(output containing `Linux` gives `linux`, anything else `windows`) and
compares it with the declared family; on mismatch the *node* short-circuits
with a failed `MISMATCH_OS_TYPE` result before any dispatch, the enclosing
rule's boolean becomes its negation flag (`false` for plain rules), and the
run proceeds to the remaining rules and checks. -/
theorem c7_mismatch_amended (env : Env) (rules : List ERule) (os_type actual : String)
    (hdet : determine_actual_os_type env = .ok actual) (hne : os_type ≠ actual) :
    (∀ node : ExecNode, execute_node env node os_type = ⟨false, none, some MISMATCH_OS_TYPE_msg⟩)
    ∧ execute_rules env rules os_type = rules.map (fun r => r.negation)
    ∧ (∀ out err, env.ssh "uname" = (out, err, (0 : Int)) →
        determine_actual_os_type env
          = .ok (if strContains (pyStrip (pyStrip out)) "Linux" then "linux" else "windows")) := by
  have hnode : ∀ node : ExecNode, execute_node env node os_type
      = ⟨false, none, some MISMATCH_OS_TYPE_msg⟩ := by
    intro node
    unfold execute_node
    rw [hdet]
    simp [bne_iff_ne, hne]
  refine ⟨hnode, ?_, ?_⟩
  · induction rules with
    | nil => rfl
    | cons r rs ih =>
      show execute_one_rule env r os_type ++ execute_rules env rs os_type = _
      rw [ih]
      simp only [execute_one_rule]
      rw [hnode r.execution_node]
      cases hneg : r.negation <;> simp [hneg]
  · intro out err hun
    unfold determine_actual_os_type execute_command_with_sudo execute_command
    simp [hun]
    split <;> rfl

/-- Witness for C7's amended statement: a negated process rule under an OS
mismatch yields `true` (negation of the failed probe) and the run-level
list has one entry per rule. -/
theorem c7_mismatch_amended_witness :
    execute_node envC7 ⟨"f", some "/etc/hosts", none, none⟩ "windows"
      = ⟨false, none, some MISMATCH_OS_TYPE_msg⟩
    ∧ execute_rules envC7 [⟨⟨"p", some "telnetd", none, none⟩, true, [], []⟩] "windows" = [true] := by
  have h := c7_mismatch_amended envC7 [⟨⟨"p", some "telnetd", none, none⟩, true, [], []⟩]
    "windows" "linux" (by decide) (by decide)
  exact ⟨h.1 _, by rw [h.2.1]; decide⟩

/-! ## C8 -/

/-- Claim C8, counterexample: A registry-key probe under the `linux` family
(with a matching Linux target): the failure is reported with the
`SSH_EXECUTION_FAILED` prefix around the builder's `ValueError` message, not
as `INVALID_CONFIGURATION` as the claim requires. -/
theorem c8_registry_counterexample :
    execute_node envC7 ⟨"r", some "HKLM-Software-X", none, none⟩ "linux"
      = ⟨false, none, some (SSH_EXECUTION_FAILED_msg ++ ": Registry checks are only supported on Windows OS.")⟩
    ∧ (SSH_EXECUTION_FAILED_msg ++ ": Registry checks are only supported on Windows OS.")
        ≠ INVALID_CONFIGURATION_msg := by
  decide

/-- Claim C8, amended: Building a Windows-only registry probe under a
non-Windows family raises `ValueError` in the command builder, which
`check_registry_key`'s own `except` converts into a failed result whose
error is the `SSH_EXECUTION_FAILED` message followed by the `ValueError`
text (for both the key-existence and the value-query forms). -/
theorem c8_registry_amended (env : Env) (node : ExecNode) (os_type : String)
    (htype : node.type = "r") (hos : os_type ≠ "windows")
    (hdet : determine_actual_os_type env = .ok os_type) :
    execute_node env node os_type
      = ⟨false, none, some (SSH_EXECUTION_FAILED_msg ++ ": Registry checks are only supported on Windows OS.")⟩ := by
  have hosb : (os_type == "windows") = false := by simp [hos]
  unfold execute_node
  rw [hdet, htype]
  simp [check_registry_key, build_registry_check_command, build_registry_key_existence_command, hosb]
  rfl

/-- Witness for C8's amended statement: a registry value query under the
`linux` family against a Linux target. -/
theorem c8_registry_amended_witness :
    execute_node envC7 ⟨"r", some "HKLM-X", some "Val", none⟩ "linux"
      = ⟨false, none, some (SSH_EXECUTION_FAILED_msg ++ ": Registry checks are only supported on Windows OS.")⟩ :=
  c8_registry_amended envC7 ⟨"r", some "HKLM-X", some "Val", none⟩ "linux" rfl (by decide) (by decide)

/-! ## C10 -/

/-- Claim C10: For a kind-`c` node under the `windows` family with the
OS-mismatch guard passing, `run_command` reads its local `command` before
any branch has assigned it; the raised `UnboundLocalError` is caught by the
method's own `except` and converted into a failed result, and no command
string is ever sent to the remote shell for that node: the result is
invariant under changing everything about the environment except the
`uname` exchange. -/
theorem c10_run_command_unbound (env env2 : Env) (node : ExecNode)
    (htype : node.type = "c")
    (hsub : optFalsy node.sub_target = true) (hpat : optFalsy node.target_pattern = true)
    (hdet : determine_actual_os_type env = .ok "windows")
    (hssh : env2.ssh "uname" = env.ssh "uname") :
    execute_node env node "windows"
      = ⟨false, none, some (SSH_EXECUTION_FAILED_msg ++ ": local variable \x27command\x27 referenced before assignment")⟩
    ∧ execute_node env2 node "windows" = execute_node env node "windows" := by
  have hdet2 : determine_actual_os_type env2 = .ok "windows" := by
    rw [← hdet]
    unfold determine_actual_os_type execute_command_with_sudo execute_command
    simp [hssh]
  have hmain : ∀ e : Env, determine_actual_os_type e = .ok "windows" →
      execute_node e node "windows"
        = ⟨false, none, some (SSH_EXECUTION_FAILED_msg ++ ": local variable \x27command\x27 referenced before assignment")⟩ := by
    intro e he
    unfold execute_node
    rw [he, htype]
    simp [run_command, hsub, hpat]
  have h1 := hmain env hdet
  have h2 := hmain env2 hdet2
  exact ⟨h1, by rw [h1, h2]⟩

/-- Witness for C10: a `whoami` command node against a Windows target; the
two environments agree only on `uname`, and the node's result is the same
failed `SSH command execution failed` result in both. -/
theorem c10_run_command_unbound_witness :
    execute_node envC10 ⟨"c", some "whoami", none, none⟩ "windows"
      = ⟨false, none, some (SSH_EXECUTION_FAILED_msg ++ ": local variable \x27command\x27 referenced before assignment")⟩
    ∧ execute_node envC10b ⟨"c", some "whoami", none, none⟩ "windows"
      = execute_node envC10 ⟨"c", some "whoami", none, none⟩ "windows" :=
  c10_run_command_unbound envC10 envC10b ⟨"c", some "whoami", none, none⟩ rfl rfl rfl
    (by decide) (by decide)

/-! ## C5 -/

/-- Claim C5, counterexample: The numeric predicate body
`abc compare == 5`, whose regex `abc` compiles but contains no capture
group, is accepted by `_parse_numeric_rule` with no diagnostic recorded:
the parser does not enforce the capture-group requirement the claim
states. -/
theorem c5_numeric_parse_counterexample :
    parse_numeric_rule env0 "abc compare == 5" (some 1) 1 []
      = (some ("n", "abc", "==", "5"), [])
    ∧ env0.hasGroup "abc" = false := by
  decide

/-- Claim C5, amended: `_parse_numeric_rule` accepts
`<regex> compare <op> <integer>` iff the format pattern matches and the
regex compiles (`_is_valid_regex`); the presence of a capture group is
*not* checked at parse time (a group-less regex only fails later, at
execution).  On either failure an `INVALID_COMPARE_EXPRESSION` (`E010`)
diagnostic is recorded and the predicate fails to parse. -/
theorem c5_numeric_parse_amended :
    (∀ (env : Env) (part : String) (id : Option Int) (idx : Nat) (errs : List BErr)
       (regex op num : String),
       numericFormatMatch (pyStrip part) = some (regex, op, num) →
       env.compiles regex = true →
       parse_numeric_rule env part id idx errs = (some ("n", regex, op, num), errs))
    ∧ (∀ (env : Env) (part : String) (id : Option Int) (idx : Nat) (errs : List BErr),
       numericFormatMatch (pyStrip part) = none →
       parse_numeric_rule env part id idx errs
         = (none, errs ++ [mkErr INVALID_COMPARE_EXPRESSION_e ("Numeric rule format error: " ++ part) id idx]))
    ∧ (∀ (env : Env) (part : String) (id : Option Int) (idx : Nat) (errs : List BErr)
       (regex op num : String),
       numericFormatMatch (pyStrip part) = some (regex, op, num) →
       env.compiles regex = false →
       parse_numeric_rule env part id idx errs
         = (none, errs ++ [mkErr INVALID_COMPARE_EXPRESSION_e ("Invalid regex in numeric rule: " ++ regex) id idx])) := by
  refine ⟨?_, ?_, ?_⟩
  · intro env part id idx errs regex op num hm hc
    simp [parse_numeric_rule, hm, hc]
  · intro env part id idx errs hm
    simp [parse_numeric_rule, hm]
  · intro env part id idx errs regex op num hm hc
    simp [parse_numeric_rule, hm, hc]

/-- Witness for C5's amended statement: one accepted predicate, one format
failure, one compile failure, each with its recorded diagnostic. -/
theorem c5_numeric_parse_amended_witness :
    parse_numeric_rule envC5 "abc compare == 5" (some 1) 1 []
      = (some ("n", "abc", "==", "5"), [])
    ∧ parse_numeric_rule envC5 "abc compare" (some 1) 1 []
      = (none, [mkErr INVALID_COMPARE_EXPRESSION_e ("Numeric rule format error: abc compare") (some 1) 1])
    ∧ parse_numeric_rule envC5 "(bad compare == 5" (some 1) 1 []
      = (none, [mkErr INVALID_COMPARE_EXPRESSION_e ("Invalid regex in numeric rule: (bad") (some 1) 1]) := by
  refine ⟨?_, ?_, ?_⟩
  · exact c5_numeric_parse_amended.1 envC5 "abc compare == 5" (some 1) 1 [] "abc" "==" "5"
      (by decide) (by decide)
  · exact c5_numeric_parse_amended.2.1 envC5 "abc compare" (some 1) 1 [] (by decide)
  · exact c5_numeric_parse_amended.2.2 envC5 "(bad compare == 5" (some 1) 1 [] "(bad" "==" "5"
      (by decide) (by decide)

/-! ## C9 -/

/-- Length fact: `_process_file_rules` yields one boolean per inner file rule. -/
theorem process_file_rules_length (env : Env) (file_rules : List FRule)
    (dirout : Option String) (os_type : String) (neg : Bool) :
    (process_file_rules env file_rules dirout os_type neg).length = file_rules.length := by
  simp [process_file_rules]

/-- Each iteration of the `_execute_rules` loop contributes exactly one
boolean when the rule carries at most one inner file rule. -/
theorem execute_one_rule_length (env : Env) (rule : ERule) (os_type : String)
    (h : rule.file_rules.length ≤ 1) :
    (execute_one_rule env rule os_type).length = 1 := by
  simp only [execute_one_rule]
  split
  · rfl
  · split
    · split
      · rename_i hne
        rw [process_file_rules_length]
        have hnil : rule.file_rules ≠ [] := by
          simpa [List.isEmpty_eq_false] using hne
        have h0 : rule.file_rules.length ≠ 0 := by
          simpa [List.length_eq_zero] using hnil
        omega
      · rfl
    · rfl

/-- Length fact: `_execute_rules` yields one boolean per rule, provided every rule
carries at most one inner file rule (as the parser guarantees). -/
theorem execute_rules_length (env : Env) (os_type : String) :
    ∀ rules : List ERule, (∀ r ∈ rules, r.file_rules.length ≤ 1) →
      (execute_rules env rules os_type).length = rules.length
  | [], _ => rfl
  | r :: rs, h => by
    show (execute_one_rule env r os_type ++ execute_rules env rs os_type).length = _
    rw [List.length_append,
      execute_one_rule_length env r os_type (h r (List.mem_cons_self r rs)),
      execute_rules_length env os_type rs (fun r' hr' => h r' (List.mem_cons_of_mem _ hr'))]
    simp [Nat.add_comm]

/-- Destructuring `consTR` on success. -/
theorem consTR_some (c : TypedRule) (p : Option (List TypedRule) × List BErr)
    (l : List TypedRule) (h : (consTR c p).1 = some l) :
    ∃ l2, p.1 = some l2 ∧ l = c :: l2 := by
  cases p with
  | mk o e =>
    cases o with
    | none => cases h
    | some l2 =>
      simp only [consTR] at h
      cases h
      exact ⟨l2, rfl, rfl⟩

/-- Every `DirectoryRule` emitted by the directory-target loop carries at
most one inner file rule. -/
theorem parse_directory_targets_inv (env : Env) :
    ∀ (fp cp : Option String) (neg : Bool) (id : Option Int) (idx : Nat)
      (targets : List String) (errs : List BErr) (l : List TypedRule),
      (parse_directory_targets env fp cp neg id idx targets errs).1 = some l →
      ∀ tr ∈ l, (TypedRule.toERule tr).file_rules.length ≤ 1
  | fp, cp, neg, id, idx, [], errs, l, h => by
    simp only [parse_directory_targets] at h
    cases h
    intro tr htr
    cases htr
  | fp, cp, neg, id, idx, dir0 :: rest, errs, l, h => by
    simp only [parse_directory_targets] at h
    by_cases hd : pyStrip dir0 == ""
    · rw [if_pos hd] at h
      exact parse_directory_targets_inv env fp cp neg id idx rest errs l h
    · rw [if_neg hd] at h
      split at h
      · -- no inner file part: the directory rule has no file rules
        obtain ⟨l2, hl2, rfl⟩ := consTR_some _ _ _ h
        intro tr htr
        rcases htr with _ | htr2
        · simp [TypedRule.toERule]
        · exact parse_directory_targets_inv env _ cp neg id idx rest errs l2 hl2 tr (by assumption)
      · -- an inner file part is present
        split at h
        · -- no content part: exactly one inner file rule
          obtain ⟨l2, hl2, rfl⟩ := consTR_some _ _ _ h
          intro tr htr
          rcases htr with _ | htr2
          · simp [TypedRule.toERule]
          · exact parse_directory_targets_inv env _ _ neg id idx rest errs l2 hl2 tr (by assumption)
        · -- content part present: split on its parse result
          split at h
          · cases h
          · obtain ⟨l2, hl2, rfl⟩ := consTR_some _ _ _ h
            intro tr htr
            rcases htr with _ | htr2
            · simp [TypedRule.toERule]
            · exact parse_directory_targets_inv env _ _ neg id idx rest _ l2 hl2 tr (by assumption)

/-- A successfully parsed command rule is a `CommandRule`. -/
theorem parse_command_rule_shape (env : Env) (rule : String) (neg : Bool) (id : Option Int)
    (idx : Nat) (errs : List BErr) (tr0 : TypedRule) (e2 : List BErr)
    (h : parse_command_rule env rule neg id idx errs = (some tr0, e2)) :
    ∃ en crs, tr0 = .cmd en crs neg := by
  simp only [parse_command_rule] at h
  split at h
  · simp at h
  · split at h
    · simp at h
    · split at h
      · split at h
        · simp at h
        · rw [Prod.mk.injEq] at h
          obtain ⟨h1, -⟩ := h
          cases h1
          exact ⟨_, _, rfl⟩
      · rw [Prod.mk.injEq] at h
        obtain ⟨h1, -⟩ := h
        cases h1
        exact ⟨_, _, rfl⟩

/-- A successfully parsed registry rule is a `RegistryRule`. -/
theorem parse_registry_rule_shape (env : Env) (rule : String) (neg : Bool) (id : Option Int)
    (idx : Nat) (errs : List BErr) (tr0 : TypedRule) (e2 : List BErr)
    (h : parse_registry_rule env rule neg id idx errs = (some tr0, e2)) :
    ∃ en crs, tr0 = .reg en crs neg := by
  simp only [parse_registry_rule] at h
  split at h
  · simp at h
  · split at h
    · split at h
      · simp at h
      · rw [Prod.mk.injEq] at h
        obtain ⟨h1, -⟩ := h
        cases h1
        exact ⟨_, _, rfl⟩
    · rw [Prod.mk.injEq] at h
      obtain ⟨h1, -⟩ := h
      cases h1
      exact ⟨_, _, rfl⟩

/-- Every typed rule emitted by the kind dispatch carries at most one inner
file rule. -/
theorem parse_rule_dispatch_inv (env : Env) (rule : String) (neg : Bool) (id : Option Int)
    (idx : Nat) (errs : List BErr) (l : List TypedRule)
    (h : (parse_rule_dispatch env rule neg id idx errs).1 = some l) :
    ∀ tr ∈ l, (TypedRule.toERule tr).file_rules.length ≤ 1 := by
  simp only [parse_rule_dispatch] at h
  split at h
  · -- f: each expanded FileRule serialises with no file_rules key
    split at h
    · simp at h
    · cases h
      intro tr htr
      obtain ⟨fr, -, rfl⟩ := List.mem_map.1 htr
      simp [TypedRule.toERule]
  · split at h
    · -- d: defer to the directory-target loop
      simp only [parse_directory_rule] at h
      split at h
      · simp at h
      · exact parse_directory_targets_inv env _ _ _ _ _ _ _ l h
    · split at h
      · -- c: a single CommandRule, no file_rules key
        split at h
        · simp at h
        · rename_i tr0 errs2 heq
          cases h
          intro tr htr
          cases htr with
          | head =>
            obtain ⟨en, crs, rfl⟩ := parse_command_rule_shape env _ _ id idx errs tr0 errs2 heq
            simp [TypedRule.toERule]
          | tail _ htr2 => cases htr2
      · split at h
        · -- p: a single ProcessRule
          cases h
          intro tr htr
          cases htr with
          | head =>
            simp only [parse_process_rule]
            split <;> simp [TypedRule.toERule]
          | tail _ htr2 => cases htr2
        · split at h
          · -- r: a single RegistryRule
            split at h
            · simp at h
            · rename_i tr0 errs2 heq
              cases h
              intro tr htr
              cases htr with
              | head =>
                obtain ⟨en, crs, rfl⟩ := parse_registry_rule_shape env _ _ id idx errs tr0 errs2 heq
                simp [TypedRule.toERule]
              | tail _ htr2 => cases htr2
          · simp at h

/-- Every typed rule emitted by `parse_rule` carries at most one inner file
rule. -/
theorem parse_rule_inv (env : Env) (rule : String) (id : Option Int) (idx : Nat)
    (errs : List BErr) (l : List TypedRule)
    (h : (parse_rule env rule id idx errs).1 = some l) :
    ∀ tr ∈ l, (TypedRule.toERule tr).file_rules.length ≤ 1 :=
  parse_rule_dispatch_inv env _ _ id idx errs l h

/-- Every typed rule collected by the `build_tree` loop carries at most one
inner file rule. -/
theorem build_rules_inv (env : Env) (id : Option Int) :
    ∀ (rules : List String) (idx : Nat) (errs : List BErr),
      ∀ tr ∈ (build_rules env id rules idx errs).1,
        (TypedRule.toERule tr).file_rules.length ≤ 1
  | [], _, _ => by intro tr htr; cases htr
  | rule :: rest, idx, errs => by
    simp only [build_rules]
    cases hp : parse_rule env rule id idx errs with
    | mk o e2 =>
      cases o with
      | none =>
        exact build_rules_inv env id rest (idx + 1) e2
      | some ll =>
        intro tr htr
        rcases List.mem_append.1 htr with h1 | h2
        · exact parse_rule_inv env rule id idx errs ll (by rw [hp]) tr h1
        · exact build_rules_inv env id rest (idx + 1) e2 tr h2

/-- Claim C9: For every check the builder accepts, executing its rules
yields exactly one boolean per typed rule the parser emitted (after
comma-expansion): `len(rule_results) = expanded_rule_count`. -/
theorem c9_rule_results_length (envB envE : Env) (obj : CheckObj) (cond : ConditionNode)
    (errs : List BErr) (os_type : String)
    (hbuild : build_tree envB obj [] = (some cond, errs)) :
    (execute_rules envE (cond.rules.map TypedRule.toERule) os_type).length
      = cond.rules.length := by
  have hrules : ∀ tr ∈ cond.rules, (TypedRule.toERule tr).file_rules.length ≤ 1 := by
    simp only [build_tree] at hbuild
    split at hbuild
    · cases hbuild
    · rename_i idv heq
      split at hbuild
      · cases hbuild
      · cases hbr : build_rules envB (some idv) obj.rules 1 [] with
        | mk parsed errs2 =>
          rw [hbr] at hbuild
          split at hbuild
          · cases hbuild
          · cases hbuild
            intro tr htr
            exact build_rules_inv envB (some idv) obj.rules 1 [] tr (by rw [hbr]; exact htr)
  have hlen := execute_rules_length envE os_type (cond.rules.map TypedRule.toERule)
    (by intro r hr
        obtain ⟨tr, htr, rfl⟩ := List.mem_map.1 hr
        exact hrules tr htr)
  rw [hlen, List.length_map]

/-- Witness for C9: the two-target file rule `f:/a,/b` expands to two typed
rules and execution yields exactly two booleans. -/
theorem c9_rule_results_length_witness :
    (execute_rules env0 (c9cond.rules.map TypedRule.toERule) "linux").length
      = c9cond.rules.length :=
  c9_rule_results_length env0 env0 c9obj c9cond [] "linux" (by decide)

end Audit
